import Mathlib

/-!
Shallow embedding of the resume-ai multi-agent pipeline core
(src/orchestrator/orchestrator.py, src/agents/*.py, the generation flow of
src/app.py) together with theorems settling the frozen claims about it.

Modelling conventions:
* Python `dict` values parsed from JSON are modelled by `JValue` / `JObj`
  (an association list; JSON objects produced by `json.loads` have unique keys).
* `json.loads` itself is an external library routine; it is modelled by an
  abstract parameter `parse : String → Option JObj` (the code only ever feeds
  it a substring that starts with `{` and ends with `}`, so a successful load
  is an object).  Failure (`json.JSONDecodeError`, a `ValueError`) is `none`.
* The LLM capability is a parameter `llm : String → Except Unit LLMResponse`;
  `Except.error ()` models the call raising.  Per the duck-typed handling in
  every agent, a response either exposes `.content` or is coerced via `str`.
* Each agent `run` additionally returns the list of prompts it sent to the
  LLM, so "performs zero LLM invocations" is expressible as an empty log.
* Python strings are `String`; `str.find` / `str.rfind` / slicing act on
  code points, modelled on `List Char`.
-/

namespace ResumeAI

/-- JSON-like values as produced by `json.loads`. -/
inductive JValue where
  | jstr  : String → JValue
  | jnum  : Int → JValue
  | jbool : Bool → JValue
  | jnull : JValue
  | jarr  : List JValue → JValue
  | jobj  : List (String × JValue) → JValue

/-- A parsed JSON object (a Python `dict`): association list with unique keys. -/
abbrev JObj := List (String × JValue)

/-- Python `dict.get(k)`: the value at key `k`, if present. -/
def jsonGet (o : JObj) (k : String) : Option JValue :=
  match o with
  | [] => none
  | (k2, v) :: rest => if k2 = k then some v else jsonGet rest k

/-- Python truthiness of a parsed JSON value (`if x:`). -/
def pyTruthy : JValue → Bool
  | .jstr s  => !s.isEmpty
  | .jnum n  => n != 0
  | .jbool b => b
  | .jnull   => false
  | .jarr l  => !l.isEmpty
  | .jobj l  => !l.isEmpty

/-- Python truthiness of an `Optional[str]` field (`if x:`). -/
def optStrTruthy : Option String → Bool
  | some s => !s.isEmpty
  | none   => false

/-- Python `s.find(c)`: index of the first occurrence of `c`, `-1` if absent. -/
def pyFind (l : List Char) (c : Char) : Int :=
  match l.findIdx? (fun a => a = c) with
  | some i => (i : Int)
  | none => -1

/-- Python `s.rfind(c)`: index of the last occurrence of `c`, `-1` if absent. -/
def pyRfind (l : List Char) (c : Char) : Int :=
  match l.reverse.findIdx? (fun a => a = c) with
  | some i => ((l.length - 1 - i : Nat) : Int)
  | none => -1

/-- The inclusive substring of `s` from its first `{` to its last `}`
(Python `response_text[json_start:json_end]` with
`json_start = find('\x7b')`, `json_end = rfind('\x7d') + 1`). -/
def bracketSubstring (s : String) : String :=
  let l := s.toList
  let json_start := pyFind l '{'
  let json_end := pyRfind l '}' + 1
  ((l.drop json_start.toNat).take (json_end - json_start).toNat).asString

/-- The shared bracket-scanning step of every agent's response parsing:
`json_start = response_text.find('\x7b')`, `json_end = response_text.rfind('\x7d') + 1`;
if `json_start >= 0 and json_end > json_start` the substring spanning them,
otherwise no JSON found. -/
def findJson (response_text : String) : Option String :=
  let l := response_text.toList
  let json_start := pyFind l '{'
  let json_end := pyRfind l '}' + 1
  if 0 ≤ json_start ∧ json_start < json_end then
    some (((l.drop json_start.toNat).take (json_end - json_start).toNat).asString)
  else
    none

/-- The LLM response: either a rich object exposing `.content`, or a value
coerced by `str(response)` (design note §9 of the specification). -/
inductive LLMResponse where
  | withContent : String → LLMResponse
  | raw : String → LLMResponse

/-- The duck-typed text extraction every agent performs
(`response.content if hasattr(response, 'content') else str(response)`). -/
def responseText : LLMResponse → String
  | .withContent content => content
  | .raw value => value

/-! Work-experience refinement agent
(src/agents/work_experience_refinement_agent.py). -/

/-- Input fields of `WorkExperienceRefinementAgent.run` (`input_data.get`,
each defaulting to the empty string). -/
structure RefinementInput where
  work_experiences : String
  job_title : String
  job_requirements : String
  requirements_analysis : String
  company_analysis : String

/-- Prompt built by `_format_prompt` from `WORK_EXPERIENCE_REFINEMENT_PROMPT`.
The template is a fixed text with the five placeholders substituted; no claim
depends on its wording, so it is modelled as a distinct tag followed by the
substituted fields. -/
def refinementPrompt (i : RefinementInput) : String :=
  "WORK_EXPERIENCE_REFINEMENT_PROMPT:" ++ i.work_experiences ++ "\n--\n" ++
    i.job_title ++ "\n--\n" ++ i.job_requirements ++ "\n--\n" ++
    i.requirements_analysis ++ "\n--\n" ++ i.company_analysis

/-- Parsing section of `WorkExperienceRefinementAgent.run` (lines 64-95):
bracket-scan the response, `json.loads` the substring, take
`parsed_response.get("work_experiences", [])`; on no JSON found or a parse
error, the empty list (so the original experiences get used downstream). -/
def refinementParse (parse : String → Option JObj) (response_text : String) : JValue :=
  match findJson response_text with
  | some json_str =>
    match parse json_str with
    | some parsed_response => (jsonGet parsed_response "work_experiences").getD (JValue.jarr [])
    | none => JValue.jarr []
  | none => JValue.jarr []

/-- Output dict of `WorkExperienceRefinementAgent.run`:
`{"refined_experiences": ...}`. -/
structure RefinementOutput where
  refined_experiences : JValue

/-- `WorkExperienceRefinementAgent.run`: short-circuit when the
work-experiences field is falsy (empty string) or the sentinel "記載なし";
otherwise format the prompt, invoke the LLM (an exception propagates), and
run the parsing section.  The second component is the list of prompts sent
to the LLM. -/
def refinementRun (parse : String → Option JObj) (llm : String → Except Unit LLMResponse)
    (input : RefinementInput) : Except Unit RefinementOutput × List String :=
  if input.work_experiences = "" ∨ input.work_experiences = "記載なし" then
    (Except.ok ⟨JValue.jarr []⟩, [])
  else
    let prompt := refinementPrompt input
    match llm prompt with
    | Except.error e => (Except.error e, [prompt])
    | Except.ok response =>
        (Except.ok ⟨refinementParse parse (responseText response)⟩, [prompt])

/-! Supplement integration agent
(src/agents/supplement_integration_agent.py). -/

mutual
/-- Python `str()` rendering of a parsed JSON value, as interpolated into the
f-strings of the record serializers. -/
def pyStr : JValue → String
  | .jstr s  => s
  | .jnum n  => toString n
  | .jbool b => if b then "True" else "False"
  | .jnull   => "None"
  | .jarr l  => "[" ++ pyStrList l ++ "]"
  | .jobj l  => "\x7b" ++ pyStrObj l ++ "\x7d"

/-- Comma-separated rendering of the elements of a Python list. -/
def pyStrList : List JValue → String
  | [] => ""
  | [v] => pyStr v
  | v :: rest => pyStr v ++ ", " ++ pyStrList rest

/-- Comma-separated rendering of the entries of a Python dict. -/
def pyStrObj : List (String × JValue) → String
  | [] => ""
  | [(k, v)] => k ++ ": " ++ pyStr v
  | (k, v) :: rest => k ++ ": " ++ pyStr v ++ ", " ++ pyStrObj rest
end

/-- Python `', '.join(v)` over a field that holds a list of strings in every
record of the documented shape (on such records the elements are `jstr`s and
this is an exact model; a non-list or non-string element would make the
source raise `TypeError`, a shape the claims do not quantify over). -/
def pyJoinComma (v : JValue) : String :=
  match v with
  | .jarr l => String.intercalate ", " (l.map pyStr)
  | v => pyStr v

/-- Python `resume_data.get(k)` used as an `if` condition: the value when the
key is present and truthy. -/
def getTruthy (o : JObj) (k : String) : Option JValue :=
  match jsonGet o k with
  | some v => if pyTruthy v then some v else none
  | none => none

/-- Python `str(exp.get(k))` inside an f-string: a missing key renders as
`None`. -/
def getStr (o : JObj) (k : String) : String :=
  match jsonGet o k with
  | some v => pyStr v
  | none => "None"

/-- Lines contributed by one work-experience entry in
`SupplementIntegrationAgent._format_resume_data`. -/
def supplementExpLines (e : JValue) : List String :=
  match e with
  | .jobj o =>
    ["\n【" ++ getStr o "company_name" ++ " - " ++ getStr o "position" ++ "】",
     "期間: " ++ getStr o "period"] ++
    (match getTruthy o "description" with
     | some v => ["職務内容: " ++ pyStr v]
     | none => []) ++
    (match getTruthy o "technologies" with
     | some v => ["使用技術: " ++ pyJoinComma v]
     | none => []) ++
    (match getTruthy o "achievements" with
     | some v => ["実績: " ++ pyJoinComma v]
     | none => [])
  | _ => []

/-- Lines contributed by one personal-project entry in
`SupplementIntegrationAgent._format_resume_data`. -/
def supplementProjLines (p : JValue) : List String :=
  match p with
  | .jobj o =>
    ["\n【" ++ getStr o "title" ++ "】"] ++
    (match getTruthy o "description" with
     | some v => ["説明: " ++ pyStr v]
     | none => []) ++
    (match getTruthy o "technologies" with
     | some v => ["技術: " ++ pyJoinComma v]
     | none => []) ++
    (match getTruthy o "url" with
     | some v => ["URL: " ++ pyStr v]
     | none => [])
  | _ => []

/-- Elements of a parsed JSON list (iteration of the `for` loops; the checked
field is truthy, hence a non-empty list for records of the documented shape). -/
def jarrElems : JValue → List JValue
  | .jarr l => l
  | _ => []

/-- `SupplementIntegrationAgent._format_resume_data`: every populated field
rendered as a labeled line, empty or absent fields omitted, joined by
newlines. -/
def formatResumeData (resume_data : JObj) : String :=
  let parts : List String :=
    (match getTruthy resume_data "name" with
     | some v => ["氏名: " ++ pyStr v] | none => []) ++
    (match getTruthy resume_data "job_title" with
     | some v => ["職種: " ++ pyStr v] | none => []) ++
    (match getTruthy resume_data "residence" with
     | some v => ["在中: " ++ pyStr v] | none => []) ++
    (match getTruthy resume_data "years_of_experience" with
     | some v => ["経験年数: " ++ pyStr v] | none => []) ++
    (match getTruthy resume_data "summary" with
     | some v => ["\n職務要約:\n" ++ pyStr v] | none => []) ++
    (match getTruthy resume_data "programming_languages" with
     | some v => ["\nプログラミング言語: " ++ pyJoinComma v] | none => []) ++
    (match getTruthy resume_data "frameworks" with
     | some v => ["フレームワーク: " ++ pyJoinComma v] | none => []) ++
    (match getTruthy resume_data "testing_tools" with
     | some v => ["テストツール: " ++ pyJoinComma v] | none => []) ++
    (match getTruthy resume_data "design_tools" with
     | some v => ["デザインツール: " ++ pyJoinComma v] | none => []) ++
    (match getTruthy resume_data "work_experiences" with
     | some v => "\n職務経歴:" :: (jarrElems v).flatMap supplementExpLines
     | none => []) ++
    (match getTruthy resume_data "personal_projects" with
     | some v => "\n個人開発:" :: (jarrElems v).flatMap supplementProjLines
     | none => []) ++
    (match getTruthy resume_data "portfolio_url" with
     | some v => ["\nポートフォリオURL: " ++ pyStr v] | none => [])
  String.intercalate "\n" parts

/-- Prompt built by `_format_prompt` from `SUPPLEMENT_INTEGRATION_PROMPT`
(fixed template text modelled as a tag, see `refinementPrompt`). -/
def supplementPrompt (resume_data_text supplement_info : String) : String :=
  "SUPPLEMENT_INTEGRATION_PROMPT:" ++ resume_data_text ++ "\n--\n" ++ supplement_info

/-- Parsing section of `SupplementIntegrationAgent.run` (lines 49-69):
bracket-scan, `json.loads`; on success, the parsed object wholesale; on no
JSON found or a parse error, the original `resume_data`. -/
def supplementParse (parse : String → Option JObj) (resume_data : JObj)
    (response_text : String) : JObj :=
  match findJson response_text with
  | some json_str =>
    match parse json_str with
    | some updated_data => updated_data
    | none => resume_data
  | none => resume_data

/-- Python `supplement_info.strip()` is empty: all characters whitespace
(true in particular for the empty string). -/
def isBlank (s : String) : Bool :=
  s.toList.all Char.isWhitespace

/-- `SupplementIntegrationAgent.run`: blank supplement returns the record
unchanged with no LLM call; otherwise serialize the record, prompt the LLM
(an exception from `llm.invoke` propagates), and run the parsing section.
The second component is the list of prompts sent to the LLM. -/
def supplementRun (parse : String → Option JObj) (llm : String → Except Unit LLMResponse)
    (resume_data : JObj) (supplement_info : String) : Except Unit JObj × List String :=
  if isBlank supplement_info then
    (Except.ok resume_data, [])
  else
    let prompt := supplementPrompt (formatResumeData resume_data) supplement_info
    match llm prompt with
    | Except.error e => (Except.error e, [prompt])
    | Except.ok response =>
        (Except.ok (supplementParse parse resume_data (responseText response)), [prompt])

/-! Improvement suggestion agent
(src/agents/improvement_suggestion_agent.py). -/

/-- Lines contributed by one work-experience entry in
`ImprovementSuggestionAgent._format_resume_data`. -/
def improvementExpLines (e : JValue) : List String :=
  match e with
  | .jobj o =>
    ["【" ++ getStr o "company_name" ++ " - " ++ getStr o "position" ++ "】",
     "期間: " ++ getStr o "period"] ++
    (match getTruthy o "description" with
     | some v => ["職務内容: " ++ pyStr v]
     | none => [])
  | _ => []

/-- Lines contributed by one personal-project entry in
`ImprovementSuggestionAgent._format_resume_data`. -/
def improvementProjLines (p : JValue) : List String :=
  match p with
  | .jobj o =>
    ["【" ++ getStr o "title" ++ "】"] ++
    (match getTruthy o "description" with
     | some v => ["説明: " ++ pyStr v]
     | none => []) ++
    (match getTruthy o "technologies" with
     | some v => ["技術: " ++ pyJoinComma v]
     | none => [])
  | _ => []

/-- `ImprovementSuggestionAgent._format_resume_data`. -/
def improvementFormatResumeData (resume_data : JObj) : String :=
  let parts : List String :=
    (match getTruthy resume_data "name" with
     | some v => ["氏名: " ++ pyStr v] | none => []) ++
    (match getTruthy resume_data "job_title" with
     | some v => ["職種: " ++ pyStr v] | none => []) ++
    (match getTruthy resume_data "years_of_experience" with
     | some v => ["経験年数: " ++ pyStr v] | none => []) ++
    (match getTruthy resume_data "summary" with
     | some v => ["\n職務要約:\n" ++ pyStr v] | none => []) ++
    (match getTruthy resume_data "programming_languages" with
     | some v => ["\nプログラミング言語: " ++ pyJoinComma v] | none => []) ++
    (match getTruthy resume_data "frameworks" with
     | some v => ["フレームワーク: " ++ pyJoinComma v] | none => []) ++
    (match getTruthy resume_data "work_experiences" with
     | some v => "\n職務経歴:" :: (jarrElems v).flatMap improvementExpLines
     | none => []) ++
    (match getTruthy resume_data "personal_projects" with
     | some v => "\n個人開発:" :: (jarrElems v).flatMap improvementProjLines
     | none => [])
  String.intercalate "\n" parts

/-- Default guidance text initialized before parsing in
`ImprovementSuggestionAgent.run` (line 50). -/
def improvementDefaultPromptText : String :=
  "職務経歴書に追加したい補足情報や経験を入力してください。"

/-- Output dict of `ImprovementSuggestionAgent.run`:
`{"suggestions": ..., "prompt_text": ...}`. -/
structure SuggestionOutput where
  suggestions : JValue
  prompt_text : JValue

/-- Prompt built by `_format_prompt` from `IMPROVEMENT_SUGGESTION_PROMPT`
(fixed template text modelled as a tag, see `refinementPrompt`). -/
def improvementPrompt (resume_data_text job_title job_description : String) : String :=
  "IMPROVEMENT_SUGGESTION_PROMPT:" ++ resume_data_text ++ "\n--\n" ++
    job_title ++ "\n--\n" ++ job_description

/-- Parsing section of `ImprovementSuggestionAgent.run` (lines 48-73):
defaults `suggestions = []`, `prompt_text = improvementDefaultPromptText`;
on a parsed object, `get("suggestions", [])` and
`get("prompt_text", prompt_text)`; on no JSON found or a parse error, the
defaults stand. -/
def improvementParse (parse : String → Option JObj) (response_text : String) :
    SuggestionOutput :=
  let suggestions := JValue.jarr []
  let prompt_text := JValue.jstr improvementDefaultPromptText
  match findJson response_text with
  | some json_str =>
    match parse json_str with
    | some parsed_response =>
        { suggestions := (jsonGet parsed_response "suggestions").getD suggestions
          prompt_text := (jsonGet parsed_response "prompt_text").getD prompt_text }
    | none => { suggestions, prompt_text }
  | none => { suggestions, prompt_text }

/-- `ImprovementSuggestionAgent.run`: serialize the record, prompt the LLM
(an exception from `llm.invoke` propagates), run the parsing section.  The
second component is the list of prompts sent to the LLM. -/
def improvementRun (parse : String → Option JObj) (llm : String → Except Unit LLMResponse)
    (resume_data : JObj) (job_title job_description : String) :
    Except Unit SuggestionOutput × List String :=
  let prompt := improvementPrompt (improvementFormatResumeData resume_data)
    job_title job_description
  match llm prompt with
  | Except.error e => (Except.error e, [prompt])
  | Except.ok response =>
      (Except.ok (improvementParse parse (responseText response)), [prompt])

/-! Data model (src/models/user_input.py, src/models/job_requirements.py). -/

/-- Work experience entry (pydantic model `WorkExperience`). -/
structure WorkExperience where
  company_name : String
  position : String
  period : String
  description : Option String

/-- Personal project entry (pydantic model `PersonalProject`). -/
structure PersonalProject where
  title : String
  description : String
  technologies : List String
  url : Option String
  date : Option String

/-- Candidate profile (pydantic model `UserInput`). -/
structure UserInput where
  name : String
  residence : Option String
  job_title : Option String
  years_of_experience : Option String
  appeal_points : Option String
  programming_languages : List String
  frameworks : List String
  testing_tools : List String
  design_tools : List String
  work_experiences : List WorkExperience
  personal_projects : List PersonalProject
  portfolio_url : Option String

/-- Company information (pydantic model `CompanyInfo`). -/
structure CompanyInfo where
  name : String
  industry : Option String
  size : Option String
  culture : Option String
  values : List String

/-- Job requirements (pydantic model `JobRequirements`). -/
structure JobRequirements where
  job_title : String
  company_info : CompanyInfo
  job_description : String
  required_skills : List String
  preferred_skills : List String
  responsibilities : List String
  qualifications : List String

/-! Plain-text stage agents (company analysis, requirements extraction,
resume structure, summary generation): each formats its template, invokes
the LLM (an exception propagates to the orchestrator uncaught), and returns
the duck-typed response text. -/

/-- Prompt of `CompanyAnalysisAgent` (template `COMPANY_ANALYSIS_PROMPT`
modelled as a tag, see `refinementPrompt`). -/
def companyPrompt (company_info job_description : String) : String :=
  "COMPANY_ANALYSIS_PROMPT:" ++ company_info ++ "\n--\n" ++ job_description

/-- `CompanyAnalysisAgent.run`, projected to its `"analysis"` result field. -/
def companyAnalysisRun (llm : String → Except Unit LLMResponse)
    (company_info job_description : String) : Except Unit String :=
  match llm (companyPrompt company_info job_description) with
  | Except.error e => Except.error e
  | Except.ok response => Except.ok (responseText response)

/-- Prompt of `RequirementsExtractionAgent` (template
`REQUIREMENTS_EXTRACTION_PROMPT` modelled as a tag). -/
def requirementsPrompt (job_description company_analysis : String) : String :=
  "REQUIREMENTS_EXTRACTION_PROMPT:" ++ job_description ++ "\n--\n" ++ company_analysis

/-- `RequirementsExtractionAgent.run`, projected to its `"requirements"`
result field. -/
def requirementsRun (llm : String → Except Unit LLMResponse)
    (job_description company_analysis : String) : Except Unit String :=
  match llm (requirementsPrompt job_description company_analysis) with
  | Except.error e => Except.error e
  | Except.ok response => Except.ok (responseText response)

/-- Prompt of `ResumeStructureAgent` (template `RESUME_STRUCTURE_PROMPT`
modelled as a tag). -/
def structurePrompt (user_experience job_requirements company_analysis : String) : String :=
  "RESUME_STRUCTURE_PROMPT:" ++ user_experience ++ "\n--\n" ++
    job_requirements ++ "\n--\n" ++ company_analysis

/-- `ResumeStructureAgent.run`, projected to its `"structure_plan"` result
field. -/
def structureRun (llm : String → Except Unit LLMResponse)
    (user_experience job_requirements company_analysis : String) : Except Unit String :=
  match llm (structurePrompt user_experience job_requirements company_analysis) with
  | Except.error e => Except.error e
  | Except.ok response => Except.ok (responseText response)

/-! Orchestrator (src/orchestrator/orchestrator.py). -/

/-- `AgentOrchestrator._format_company_info`. -/
def formatCompanyInfo (company_info : CompanyInfo) : String :=
  let parts : List String :=
    ["企業名: " ++ company_info.name] ++
    (if optStrTruthy company_info.industry then ["業界: " ++ company_info.industry.getD ""] else []) ++
    (if optStrTruthy company_info.size then ["規模: " ++ company_info.size.getD ""] else []) ++
    (if optStrTruthy company_info.culture then ["企業文化: " ++ company_info.culture.getD ""] else []) ++
    (if !company_info.values.isEmpty then
       ["企業価値観: " ++ String.intercalate ", " company_info.values] else [])
  String.intercalate "\n" parts

/-- `AgentOrchestrator._format_user_input` (the file defines it twice back to
back; the second definition is the one in force and is modelled here). -/
def formatUserInput (user_input : UserInput) : String :=
  let parts : List String :=
    ["氏名: " ++ user_input.name] ++
    (if optStrTruthy user_input.residence then
       ["在住地: " ++ user_input.residence.getD ""] else []) ++
    (if optStrTruthy user_input.job_title then
       ["職種: " ++ user_input.job_title.getD ""] else []) ++
    (if optStrTruthy user_input.years_of_experience then
       ["経験年数: " ++ user_input.years_of_experience.getD ""] else []) ++
    (if !user_input.programming_languages.isEmpty then
       ["\nプログラミング言語: " ++ String.intercalate ", " user_input.programming_languages] else []) ++
    (if !user_input.frameworks.isEmpty then
       ["フレームワーク: " ++ String.intercalate ", " user_input.frameworks] else []) ++
    (if !user_input.testing_tools.isEmpty then
       ["テストツール: " ++ String.intercalate ", " user_input.testing_tools] else []) ++
    (if !user_input.design_tools.isEmpty then
       ["デザインツール: " ++ String.intercalate ", " user_input.design_tools] else []) ++
    (if !user_input.personal_projects.isEmpty then
       "\n個人開発:" :: user_input.personal_projects.flatMap (fun proj =>
         ["【" ++ proj.title ++ "】", proj.description] ++
         (if !proj.technologies.isEmpty then
            ["使用技術: " ++ String.intercalate ", " proj.technologies] else []))
     else []) ++
    (if optStrTruthy user_input.portfolio_url then
       ["\nポートフォリオ: " ++ user_input.portfolio_url.getD ""] else [])
  String.intercalate "\n" parts

/-- `AgentOrchestrator._format_work_experiences`: the sentinel "記載なし" for
an empty experience list, else the labeled lines for each entry (with a
trailing blank line per entry). -/
def formatWorkExperiences (user_input : UserInput) : String :=
  if user_input.work_experiences.isEmpty then "記載なし"
  else
    String.intercalate "\n" (user_input.work_experiences.flatMap (fun exp =>
      ["企業名: " ++ exp.company_name,
       "職位: " ++ exp.position,
       "期間: " ++ exp.period] ++
      (match exp.description with
       | some d => if !d.isEmpty then ["職務内容・成果:\n" ++ d] else []
       | none => []) ++
      [""]))

/-- Python `x or ""` on an `Optional[str]` field. -/
def pyOrEmpty : Option String → String
  | some s => if s.isEmpty then "" else s
  | none => ""

/-- Work-experience dict built from an original entry in
`_extract_structured_data` (the fallback branch constructs fresh dicts from
the profile's fields). -/
def mkWorkExpObj (exp : WorkExperience) : JValue :=
  JValue.jobj
    [("company_name", JValue.jstr exp.company_name),
     ("position", JValue.jstr exp.position),
     ("period", JValue.jstr exp.period),
     ("description", match exp.description with
                     | some d => JValue.jstr d
                     | none => JValue.jnull)]

/-- Personal-project dict built in `_extract_structured_data`. -/
def mkPersonalProjectObj (proj : PersonalProject) : JValue :=
  JValue.jobj
    [("title", JValue.jstr proj.title),
     ("description", JValue.jstr proj.description),
     ("technologies", JValue.jarr (proj.technologies.map JValue.jstr)),
     ("url", match proj.url with | some u => JValue.jstr u | none => JValue.jnull),
     ("date", match proj.date with | some d => JValue.jstr d | none => JValue.jnull)]

/-- `AgentOrchestrator._extract_structured_data`: the document-assembly step
(pure data transformation, no LLM call).  Uses `refined_experiences` if it is
truthy (a non-empty list), otherwise fresh dicts built from the original
entries; then the structured-data dict with every field of the data model. -/
def extractStructuredData (user_input : UserInput) (job_requirements : JobRequirements)
    (refined_experiences : JValue) : JObj :=
  let work_exp_list : JValue :=
    if pyTruthy refined_experiences then refined_experiences
    else JValue.jarr (user_input.work_experiences.map mkWorkExpObj)
  [("name", JValue.jstr user_input.name),
   ("residence", JValue.jstr (pyOrEmpty user_input.residence)),
   ("job_title", JValue.jstr (pyOrEmpty user_input.job_title)),
   ("role", JValue.jstr (if job_requirements.job_title.isEmpty then ""
                         else job_requirements.job_title)),
   ("years_of_experience", JValue.jstr (pyOrEmpty user_input.years_of_experience)),
   ("email", JValue.jstr ""),
   ("phone", JValue.jstr ""),
   ("programming_languages", JValue.jarr (user_input.programming_languages.map JValue.jstr)),
   ("frameworks", JValue.jarr (user_input.frameworks.map JValue.jstr)),
   ("testing_tools", JValue.jarr (user_input.testing_tools.map JValue.jstr)),
   ("design_tools", JValue.jarr (user_input.design_tools.map JValue.jstr)),
   ("work_experiences", work_exp_list),
   ("personal_projects", JValue.jarr (user_input.personal_projects.map mkPersonalProjectObj)),
   ("portfolio_url", JValue.jstr (pyOrEmpty user_input.portfolio_url))]

/-- Stage 3 of `AgentOrchestrator.generate_resume` (lines 62-95): if the
profile has work experiences, run the refinement agent on the formatted
inputs; any exception from the block (in particular one propagated from
`llm.invoke`) is caught and degrades to the empty list.  The second component
is the list of prompts the stage sent to the LLM. -/
def orchestratorStage3 (parse : String → Option JObj) (llm : String → Except Unit LLMResponse)
    (user_input : UserInput) (job_requirements : JobRequirements)
    (requirements_analysis company_analysis : String) : JValue × List String :=
  if !user_input.work_experiences.isEmpty then
    match refinementRun parse llm
      { work_experiences := formatWorkExperiences user_input
        job_title := job_requirements.job_title
        job_requirements := job_requirements.job_description
        requirements_analysis := requirements_analysis
        company_analysis := company_analysis } with
    | (Except.ok output, log) => (output.refined_experiences, log)
    | (Except.error _, log) => (JValue.jarr [], log)
  else
    (JValue.jarr [], [])

/-- The results dict accumulated by `AgentOrchestrator.generate_resume`. -/
structure GenResults where
  company_analysis : String
  requirements_analysis : String
  refined_work_experiences : JValue
  structure_plan : String
  resume_data : JObj

/-- `AgentOrchestrator.generate_resume`: stages 1-2 (fatal on exception),
stage 3 (recoverable, see `orchestratorStage3`), stage 4 (fatal), stage 5
(pure document assembly).  The profile is threaded through in state-passing
style and returned as the second component: no statement of the source
assigns to `user_input` or to any of its sub-objects (every stage only reads
its fields and builds fresh strings and dicts), so every branch returns the
argument itself as the post-state. -/
def generate_resume (parse : String → Option JObj) (llm : String → Except Unit LLMResponse)
    (user_input : UserInput) (job_requirements : JobRequirements) :
    Except Unit GenResults × UserInput :=
  let company_info_text := formatCompanyInfo job_requirements.company_info
  match companyAnalysisRun llm company_info_text job_requirements.job_description with
  | Except.error e => (Except.error e, user_input)
  | Except.ok company_analysis =>
    match requirementsRun llm job_requirements.job_description company_analysis with
    | Except.error e => (Except.error e, user_input)
    | Except.ok requirements_analysis =>
      let refined_experiences :=
        (orchestratorStage3 parse llm user_input job_requirements
          requirements_analysis company_analysis).1
      let user_input_text := formatUserInput user_input
      match structureRun llm user_input_text requirements_analysis company_analysis with
      | Except.error e => (Except.error e, user_input)
      | Except.ok structure_plan =>
        (Except.ok
          { company_analysis := company_analysis
            requirements_analysis := requirements_analysis
            refined_work_experiences := refined_experiences
            structure_plan := structure_plan
            resume_data := extractStructuredData user_input job_requirements refined_experiences },
         user_input)

/-! Summary generation (src/agents/summary_generation_agent.py and
`AgentOrchestrator.generate_summary`). -/

/-- Input fields of `SummaryGenerationAgent.run`. -/
structure SummaryInput where
  appeal_points : String
  work_experiences : String
  programming_languages : String
  frameworks : String
  testing_tools : String
  design_tools : String
  personal_projects : String
  company_analysis : String
  requirements_analysis : String

/-- Prompt of `SummaryGenerationAgent` (template `SUMMARY_GENERATION_PROMPT`
modelled as a tag, see `refinementPrompt`). -/
def summaryPrompt (i : SummaryInput) : String :=
  "SUMMARY_GENERATION_PROMPT:" ++ i.appeal_points ++ "\n--\n" ++
    i.work_experiences ++ "\n--\n" ++ i.programming_languages ++ "\n--\n" ++
    i.frameworks ++ "\n--\n" ++ i.testing_tools ++ "\n--\n" ++
    i.design_tools ++ "\n--\n" ++ i.personal_projects ++ "\n--\n" ++
    i.company_analysis ++ "\n--\n" ++ i.requirements_analysis

/-- `SummaryGenerationAgent.run`, projected to its `"summary"` result field:
format the prompt, invoke the LLM (an exception propagates), return the
duck-typed response text as the summary with no parsing. -/
def summaryAgentRun (llm : String → Except Unit LLMResponse) (i : SummaryInput) :
    Except Unit String :=
  match llm (summaryPrompt i) with
  | Except.error e => Except.error e
  | Except.ok response => Except.ok (responseText response)

/-- `AgentOrchestrator.generate_summary`: formats the profile fields
(the sentinel "記載なし" for empty skill lists and empty experience or
project lists), then runs the summary agent; an exception from the agent
propagates to the caller (no try/except in this method). -/
def generate_summary (llm : String → Except Unit LLMResponse) (user_input : UserInput)
    (job_requirements : JobRequirements)
    (company_analysis requirements_analysis : String) : Except Unit String :=
  let programming_languages := if !user_input.programming_languages.isEmpty
    then String.intercalate ", " user_input.programming_languages else "記載なし"
  let frameworks := if !user_input.frameworks.isEmpty
    then String.intercalate ", " user_input.frameworks else "記載なし"
  let testing_tools := if !user_input.testing_tools.isEmpty
    then String.intercalate ", " user_input.testing_tools else "記載なし"
  let design_tools := if !user_input.design_tools.isEmpty
    then String.intercalate ", " user_input.design_tools else "記載なし"
  let work_experiences := if user_input.work_experiences.isEmpty then "記載なし"
    else String.join (user_input.work_experiences.map (fun exp =>
      "\n【" ++ exp.company_name ++ " - " ++ exp.position ++ "】\n" ++
      "期間: " ++ exp.period ++ "\n" ++
      (match exp.description with
       | some d => if !d.isEmpty then d ++ "\n" else ""
       | none => "")))
  let personal_projects := if user_input.personal_projects.isEmpty then "記載なし"
    else String.join (user_input.personal_projects.map (fun proj =>
      "\n【" ++ proj.title ++ "】\n" ++ proj.description ++ "\n" ++
      (if !proj.technologies.isEmpty then
         "使用技術: " ++ String.intercalate ", " proj.technologies ++ "\n" else "")))
  let appeal_points := match user_input.appeal_points with
    | some s => if s.isEmpty then "スキルシートを参照" else s
    | none => "スキルシートを参照"
  let _ := job_requirements
  summaryAgentRun llm
    { appeal_points := appeal_points
      work_experiences := work_experiences
      programming_languages := programming_languages
      frameworks := frameworks
      testing_tools := testing_tools
      design_tools := design_tools
      personal_projects := personal_projects
      company_analysis := company_analysis
      requirements_analysis := requirements_analysis }

/-! Top-level generation flow (src/app.py, lines 196-256). -/

/-- Python dict assignment `o[k] = v`: updates the value in place when the
key exists, otherwise appends the new entry at the end. -/
def dictSet (o : JObj) (k : String) (v : JValue) : JObj :=
  if o.any (fun kv => kv.1 = k) then
    o.map (fun kv => if kv.1 = k then (k, v) else kv)
  else
    o ++ [(k, v)]

/-- Modelled from the spec: `AgentOrchestrator.generate_improvement_suggestions`
is called from src/app.py but its definition is absent from the sources
(orchestrator.py ends after `_extract_structured_data`).  Per §2 and §4.5 of
the specification it invokes the improvement-suggestion step on the record
and the job (`suggest(record, job_title, job_description)`), which is the
present `ImprovementSuggestionAgent`. -/
def generate_improvement_suggestions (parse : String → Option JObj)
    (llm : String → Except Unit LLMResponse) (resume_data : JObj)
    (job_requirements : JobRequirements) : Except Unit SuggestionOutput :=
  (improvementRun parse llm resume_data job_requirements.job_title
    job_requirements.job_description).1

/-- What the top-level flow stores on success: the results dict (with the
summary attached to its resume data), the generated summary, and the
session-state suggestion fields. -/
structure MainResults where
  results : GenResults
  generated_summary : String
  suggestions : JValue
  prompt_text : JValue

/-- The generation block of `main` in src/app.py (lines 196-256): one
`try` wraps `generate_resume`, `generate_summary`, the summary attachment
and the rest of the block, with a single top-level `except` that reports the
error and stores no result — so an exception from either of the first two
calls aborts the request (`Except.error`).  The improvement-suggestion step
has its own inner `try` and degrades to `[]` and `""`. -/
def mainGenerate (parse : String → Option JObj) (llm : String → Except Unit LLMResponse)
    (user_input : UserInput) (job_requirements : JobRequirements) :
    Except Unit MainResults :=
  match (generate_resume parse llm user_input job_requirements).1 with
  | Except.error e => Except.error e
  | Except.ok results =>
    match generate_summary llm user_input job_requirements
      results.company_analysis results.requirements_analysis with
    | Except.error e => Except.error e
    | Except.ok summary =>
      let resume_data := dictSet results.resume_data "summary" (JValue.jstr summary)
      let suggestionsState :=
        match generate_improvement_suggestions parse llm resume_data job_requirements with
        | Except.ok s => ((jsonGet [("suggestions", s.suggestions),
                                    ("prompt_text", s.prompt_text)] "suggestions").getD (JValue.jarr []),
                          (jsonGet [("suggestions", s.suggestions),
                                    ("prompt_text", s.prompt_text)] "prompt_text").getD (JValue.jstr ""))
        | Except.error _ => (JValue.jarr [], JValue.jstr "")
      Except.ok
        { results := { results with resume_data := resume_data }
          generated_summary := summary
          suggestions := suggestionsState.1
          prompt_text := suggestionsState.2 }

/-! Concrete fixtures used by the closed instance theorems below. -/

/-- Parse behavior on which `json.loads` rejects every substring it is
handed. -/
def parseNone : String → Option JObj := fun _ => none

/-- LLM stub answering every prompt with the plain text "A". -/
def llmA : String → Except Unit LLMResponse := fun _ => Except.ok (LLMResponse.raw "A")

/-- LLM stub answering every prompt with prose that contains no braces. -/
def llmNoJson : String → Except Unit LLMResponse :=
  fun _ => Except.ok (LLMResponse.raw "no json here")

/-- A concrete work-experience entry. -/
def we1 : WorkExperience :=
  { company_name := "ABC商事", position := "エンジニア", period := "2020-2022",
    description := some "開発に従事" }

/-- A second concrete work-experience entry (no description). -/
def we2 : WorkExperience :=
  { company_name := "XYZ社", position := "リーダー", period := "2022-2024",
    description := none }

/-- A concrete profile with two work experiences. -/
def ui0 : UserInput :=
  { name := "田中太郎", residence := some "東京都", job_title := some "エンジニア",
    years_of_experience := some "5年", appeal_points := none,
    programming_languages := ["Python"], frameworks := [], testing_tools := [],
    design_tools := [], work_experiences := [we1, we2], personal_projects := [],
    portfolio_url := none }

/-- A concrete profile with no work experiences, skills or projects. -/
def ui8 : UserInput :=
  { name := "佐藤花子", residence := none, job_title := none,
    years_of_experience := none, appeal_points := none,
    programming_languages := [], frameworks := [], testing_tools := [],
    design_tools := [], work_experiences := [], personal_projects := [],
    portfolio_url := none }

/-- A concrete company. -/
def companyInfo0 : CompanyInfo :=
  { name := "テック社", industry := none, size := none, culture := none, values := [] }

/-- A concrete job posting. -/
def job0 : JobRequirements :=
  { job_title := "バックエンド", company_info := companyInfo0,
    job_description := "Python経験必須", required_skills := [], preferred_skills := [],
    responsibilities := [], qualifications := [] }

/-- A concrete structured record. -/
def record0 : JObj :=
  [("name", JValue.jstr "田中太郎"), ("job_title", JValue.jstr "エンジニア")]

/-- Response text with a well-formed JSON object between its first brace and
its last brace, wrapped in prose. -/
def c3text : String := "prose \x7b\"a\": 1\x7d tail"

/-- The inclusive first-brace-to-last-brace substring of `c3text`. -/
def c3sub : String := "\x7b\"a\": 1\x7d"

/-- What `json.loads` yields on `c3sub` under `c3parse`. -/
def c3obj : JObj :=
  [("a", JValue.jnum 1),
   ("work_experiences", JValue.jarr [JValue.jstr "w"]),
   ("suggestions", JValue.jarr [JValue.jstr "s"]),
   ("prompt_text", JValue.jstr "p")]

/-- Parse behavior succeeding exactly on `c3sub`. -/
def c3parse : String → Option JObj := fun t => if t = c3sub then some c3obj else none

/-- A well-formed JSON object text whose object lacks every expected key. -/
def c5text : String := "\x7b\"foo\": 1\x7d"

/-- The parse of `c5text` under `c5parse`: an object without a
`work_experiences` key. -/
def c5obj : JObj := [("foo", JValue.jnum 1)]

/-- Parse behavior succeeding exactly on `c5text`. -/
def c5parse : String → Option JObj := fun t => if t = c5text then some c5obj else none

/-- A refinement input carrying the "記載なし" sentinel. -/
def refInputSentinel : RefinementInput :=
  { work_experiences := "記載なし", job_title := "", job_requirements := "",
    requirements_analysis := "", company_analysis := "" }

/-- The stage-3 refinement input the orchestrator builds for `ui0`/`job0`
when the first two analyses both came back as "A". -/
def refInput7 : RefinementInput :=
  { work_experiences := formatWorkExperiences ui0, job_title := job0.job_title,
    job_requirements := job0.job_description, requirements_analysis := "A",
    company_analysis := "A" }

/-- LLM stub that raises exactly on the stage-3 refinement prompt and
answers "A" elsewhere. -/
def llm7 : String → Except Unit LLMResponse :=
  fun p => if p = refinementPrompt refInput7 then Except.error ()
           else Except.ok (LLMResponse.raw "A")

/-- The summary prompt `generate_summary` builds for the empty profile `ui8`
when both analyses came back as "A". -/
def sumPrompt8 : String :=
  summaryPrompt
    { appeal_points := "スキルシートを参照", work_experiences := "記載なし",
      programming_languages := "記載なし", frameworks := "記載なし",
      testing_tools := "記載なし", design_tools := "記載なし",
      personal_projects := "記載なし", company_analysis := "A",
      requirements_analysis := "A" }

/-- LLM stub that raises exactly on the summary prompt and answers "A"
elsewhere. -/
def llm8 : String → Except Unit LLMResponse :=
  fun p => if p = sumPrompt8 then Except.error ()
           else Except.ok (LLMResponse.raw "A")

/-- The pipeline results `generate_resume` produces for `ui8`/`job0` under
`llm8`. -/
def res8 : GenResults :=
  { company_analysis := "A", requirements_analysis := "A",
    refined_work_experiences := JValue.jarr [], structure_plan := "A",
    resume_data := extractStructuredData ui8 job0 (JValue.jarr []) }

/-- The pipeline results `generate_resume` produces for `ui0`/`job0` under
`llmA` with `parseNone`. -/
def res9 : GenResults :=
  { company_analysis := "A", requirements_analysis := "A",
    refined_work_experiences := JValue.jarr [], structure_plan := "A",
    resume_data := extractStructuredData ui0 job0 (JValue.jarr []) }

/-! Sanity checks of the embedding on concrete inputs. -/

example : pyFind "ab{c}".toList '{' = 2 := by decide
example : pyRfind "ab{c}d".toList '}' = 4 := by decide
example : findJson "no braces" = none := rfl
example : findJson "xx\x7ba\x7dyy" = some "\x7ba\x7d" := rfl
example : findJson "\x7d then \x7b" = none := rfl
example :
    refinementParse (fun _ => none) "xx\x7ba\x7dyy" = JValue.jarr [] := rfl

example : findJson c3text = some c3sub := rfl

example : formatWorkExperiences ui0 =
    "企業名: ABC商事\n職位: エンジニア\n期間: 2020-2022\n職務内容・成果:\n開発に従事\n\n企業名: XYZ社\n職位: リーダー\n期間: 2022-2024\n" := rfl

/-! Helper lemmas shared by the claim theorems. -/

/-- The document-assembly dict maps "work_experiences" to the refined list
exactly when that list is truthy, else to fresh dicts from the originals. -/
theorem jsonGet_extract_work_experiences (ui : UserInput) (job : JobRequirements)
    (refined : JValue) :
    jsonGet (extractStructuredData ui job refined) "work_experiences" =
      some (if pyTruthy refined then refined
            else JValue.jarr (ui.work_experiences.map mkWorkExpObj)) := rfl

/-- On a non-empty profile, a stage-3 run whose agent raised degrades to the
empty refined list (the orchestrator's `except` branch). -/
theorem orchestratorStage3_err (parse : String → Option JObj)
    (llm : String → Except Unit LLMResponse) (ui : UserInput) (job : JobRequirements)
    (ra ca : String) (e : Unit) (log : List String)
    (hne : ui.work_experiences ≠ [])
    (h3 : refinementRun parse llm
      { work_experiences := formatWorkExperiences ui
        job_title := job.job_title
        job_requirements := job.job_description
        requirements_analysis := ra
        company_analysis := ca } = (Except.error e, log)) :
    orchestratorStage3 parse llm ui job ra ca = (JValue.jarr [], log) := by
  have hE : ui.work_experiences.isEmpty = false := by
    cases h : ui.work_experiences with
    | nil => exact absurd h hne
    | cons a as => rfl
  unfold orchestratorStage3
  rw [hE]
  simp only [Bool.not_false, if_true]
  rw [h3]

/-- A successful pipeline run's structured record is the document assembly
applied to the profile, the job and the stage-3 output. -/
theorem generate_resume_ok_resume_data (parse : String → Option JObj)
    (llm : String → Except Unit LLMResponse) (ui : UserInput) (job : JobRequirements)
    (res : GenResults)
    (h : (generate_resume parse llm ui job).1 = Except.ok res) :
    res.resume_data = extractStructuredData ui job res.refined_work_experiences := by
  simp only [generate_resume] at h
  split at h
  · simp at h
  · split at h
    · simp at h
    · split at h
      · simp at h
      · simp at h
        subst h
        rfl

/-- Whatever a successful `findJson` returns is the inclusive
first-brace-to-last-brace substring. -/
theorem findJson_eq_bracketSubstring (s js : String) (h : findJson s = some js) :
    js = bracketSubstring s := by
  simp only [findJson] at h
  split at h
  · injection h with h'
    rw [← h']
    rfl
  · exact Option.noConfusion h

/-- On extraction failure the supplement agent's parsing section returns the
original record. -/
theorem supplementParse_fail (parse : String → Option JObj) (resume_data : JObj)
    (t : String)
    (hfail : findJson t = none ∨ ∃ js, findJson t = some js ∧ parse js = none) :
    supplementParse parse resume_data t = resume_data := by
  rcases hfail with h | ⟨js, hjs, hp⟩
  · simp only [supplementParse, h]
  · simp only [supplementParse, hjs, hp]

/-- The supplement agent's parsing section either returns the original
record or a fully parsed object. -/
theorem supplementParse_cases (parse : String → Option JObj) (resume_data : JObj)
    (t : String) :
    supplementParse parse resume_data t = resume_data ∨
    ∃ js obj, findJson t = some js ∧ parse js = some obj ∧
      supplementParse parse resume_data t = obj := by
  cases hf : findJson t with
  | none => exact Or.inl (by simp only [supplementParse, hf])
  | some js =>
    cases hp : parse js with
    | none => exact Or.inl (by simp only [supplementParse, hf, hp])
    | some obj =>
      exact Or.inr ⟨js, obj, rfl, hp, by simp only [supplementParse, hf, hp]⟩

/-! Claim theorems. -/

/-- C1: for every Profile with a non-empty original work-experience list,
the assembled StructuredRecord uses the refined experience list when
refinement returned a non-empty parsed list, and the original experience
entries verbatim (same field values, same order) when refinement returned an
empty list. -/
theorem c1_assembly_uses_refined_iff_nonempty (ui : UserInput) (job : JobRequirements)
    (l : List JValue) (hne : ui.work_experiences ≠ []) (hl : l ≠ []) :
    jsonGet (extractStructuredData ui job (JValue.jarr l)) "work_experiences" =
      some (JValue.jarr l) ∧
    jsonGet (extractStructuredData ui job (JValue.jarr [])) "work_experiences" =
      some (JValue.jarr (ui.work_experiences.map mkWorkExpObj)) := by
  constructor
  · cases l with
    | nil => exact absurd rfl hl
    | cons a as => rfl
  · rfl

/-- C1 witness: instantiation at a concrete profile, job and one-element
refined list. -/
theorem c1_witness :
    ui0.work_experiences ≠ [] ∧ [JValue.jstr "r"] ≠ ([] : List JValue) ∧
    (jsonGet (extractStructuredData ui0 job0 (JValue.jarr [JValue.jstr "r"])) "work_experiences" =
      some (JValue.jarr [JValue.jstr "r"]) ∧
    jsonGet (extractStructuredData ui0 job0 (JValue.jarr [])) "work_experiences" =
      some (JValue.jarr (ui0.work_experiences.map mkWorkExpObj))) := by
  refine ⟨?_, ?_, c1_assembly_uses_refined_iff_nonempty ui0 job0 [JValue.jstr "r"] ?_ ?_⟩ <;>
    simp [ui0]

/-- C6: with an empty work-experience string or the sentinel "記載なし" the
refinement agent returns an empty refined list without invoking the LLM, and
with an empty experience list the orchestrator's stage 3 yields the empty
refined list without invoking the LLM (empty prompt log in both cases). -/
theorem c6_refinement_short_circuit (parse : String → Option JObj)
    (llm : String → Except Unit LLMResponse) (i : RefinementInput)
    (ui : UserInput) (job : JobRequirements) (ra ca : String)
    (hi : i.work_experiences = "" ∨ i.work_experiences = "記載なし")
    (hui : ui.work_experiences = []) :
    refinementRun parse llm i = (Except.ok ⟨JValue.jarr []⟩, []) ∧
    orchestratorStage3 parse llm ui job ra ca = (JValue.jarr [], []) := by
  constructor
  · unfold refinementRun
    rw [if_pos hi]
  · unfold orchestratorStage3
    rw [hui]
    rfl

/-- C6 witness: the sentinel input and the empty profile at concrete
arguments. -/
theorem c6_witness :
    (refInputSentinel.work_experiences = "" ∨
     refInputSentinel.work_experiences = "記載なし") ∧
    ui8.work_experiences = [] ∧
    (refinementRun parseNone llmA refInputSentinel = (Except.ok ⟨JValue.jarr []⟩, []) ∧
     orchestratorStage3 parseNone llmA ui8 job0 "" "" = (JValue.jarr [], [])) :=
  ⟨Or.inr rfl, rfl,
    c6_refinement_short_circuit parseNone llmA refInputSentinel ui8 job0 "" ""
      (Or.inr rfl) rfl⟩

/-- C10: running the full pipeline never mutates the caller-supplied
profile: the threaded post-state of the UserInput equals the argument in
every branch (no source statement assigns to the profile or its entries;
refinement and assembly build new lists and dicts). -/
theorem c10_profile_never_mutated (parse : String → Option JObj)
    (llm : String → Except Unit LLMResponse) (ui : UserInput) (job : JobRequirements) :
    (generate_resume parse llm ui job).2 = ui := by
  simp only [generate_resume]
  split
  · rfl
  · split
    · rfl
    · split
      · rfl
      · rfl

/-- C2: supplement integration is all-or-nothing: a blank (empty or
whitespace-only) supplement returns the record unchanged with no LLM call;
a response without braces or with unparseable JSON returns the original
record unchanged; and every successful outcome is either the unchanged
record or a fully parsed object, never a partial update (the embedded run
is total, so no exception escapes the extraction path). -/
theorem c2_supplement_all_or_nothing (parse : String → Option JObj)
    (llm : String → Except Unit LLMResponse) (resume_data : JObj)
    (blank_info supplement_info : String) (response : LLMResponse)
    (hblank : isBlank blank_info = true)
    (hcall : llm (supplementPrompt (formatResumeData resume_data) supplement_info) =
      Except.ok response)
    (hfail : findJson (responseText response) = none ∨
      ∃ js, findJson (responseText response) = some js ∧ parse js = none) :
    supplementRun parse llm resume_data blank_info = (Except.ok resume_data, []) ∧
    (supplementRun parse llm resume_data supplement_info).1 = Except.ok resume_data ∧
    (∀ text out, (supplementRun parse llm resume_data text).1 = Except.ok out →
      out = resume_data ∨ ∃ js obj, parse js = some obj ∧ out = obj) := by
  refine ⟨?_, ?_, ?_⟩
  · simp only [supplementRun, hblank, if_true]
  · by_cases hb : isBlank supplement_info
    · simp only [supplementRun, hb, if_true]
    · simp only [supplementRun, hb, if_false, Bool.false_eq_true, hcall]
      rw [supplementParse_fail parse resume_data (responseText response) hfail]
  · intro text out h
    by_cases hb : isBlank text
    · simp only [supplementRun, hb, if_true] at h
      injection h with h'
      exact Or.inl h'.symm
    · simp only [supplementRun, hb, if_false, Bool.false_eq_true] at h
      cases hL : llm (supplementPrompt (formatResumeData resume_data) text) with
      | error e => rw [hL] at h; simp at h
      | ok r =>
        rw [hL] at h
        simp only at h
        injection h with h'
        rcases supplementParse_cases parse resume_data (responseText r) with hc | ⟨js, obj, _, hp, hc⟩
        · exact Or.inl (by rw [← h', hc])
        · exact Or.inr ⟨js, obj, hp, by rw [← h', hc]⟩

/-- C2 witness: a whitespace-only supplement and a prose-only LLM response
at a concrete record. -/
theorem c2_witness :
    isBlank "  " = true ∧
    llmNoJson (supplementPrompt (formatResumeData record0) "補足あり") =
      Except.ok (LLMResponse.raw "no json here") ∧
    (findJson (responseText (LLMResponse.raw "no json here")) = none ∨
     ∃ js, findJson (responseText (LLMResponse.raw "no json here")) = some js ∧
       parseNone js = none) ∧
    supplementRun parseNone llmNoJson record0 "  " = (Except.ok record0, []) ∧
    (supplementRun parseNone llmNoJson record0 "補足あり").1 = Except.ok record0 :=
  ⟨rfl, rfl, Or.inl rfl,
    (c2_supplement_all_or_nothing parseNone llmNoJson record0 "  " "補足あり"
      (LLMResponse.raw "no json here") rfl rfl (Or.inl rfl)).1,
    (c2_supplement_all_or_nothing parseNone llmNoJson record0 "  " "補足あり"
      (LLMResponse.raw "no json here") rfl rfl (Or.inl rfl)).2.1⟩

/-- C3: when a response contains a well-formed JSON object between its first
brace and last brace, extraction returns the direct parse of that inclusive
substring: the supplement stage returns the parsed object itself, and the
keyed stages return the corresponding key's value of that parse. -/
theorem c3_extraction_equals_direct_parse (parse : String → Option JObj)
    (resume_data : JObj) (s js : String) (obj : JObj)
    (hfind : findJson s = some js) (hparse : parse js = some obj) :
    js = bracketSubstring s ∧
    supplementParse parse resume_data s = obj ∧
    (∀ v, jsonGet obj "work_experiences" = some v → refinementParse parse s = v) ∧
    (∀ v, jsonGet obj "suggestions" = some v → (improvementParse parse s).suggestions = v) ∧
    (∀ v, jsonGet obj "prompt_text" = some v → (improvementParse parse s).prompt_text = v) := by
  refine ⟨findJson_eq_bracketSubstring s js hfind, ?_, ?_, ?_, ?_⟩
  · simp only [supplementParse, hfind, hparse]
  · intro v hv
    simp only [refinementParse, hfind, hparse, hv, Option.getD_some]
  · intro v hv
    simp only [improvementParse, hfind, hparse, hv, Option.getD_some]
  · intro v hv
    simp only [improvementParse, hfind, hparse, hv, Option.getD_some]

/-- C3 witness: a prose-wrapped JSON object at a concrete parse behavior;
the extraction equals the direct parse and the expected-key projections. -/
theorem c3_witness :
    findJson c3text = some c3sub ∧
    c3parse c3sub = some c3obj ∧
    c3sub = bracketSubstring c3text ∧
    supplementParse c3parse record0 c3text = c3obj ∧
    refinementParse c3parse c3text = JValue.jarr [JValue.jstr "w"] := by
  have h := c3_extraction_equals_direct_parse c3parse record0 c3text c3sub c3obj rfl rfl
  exact ⟨rfl, rfl, h.1, h.2.1, h.2.2.1 (JValue.jarr [JValue.jstr "w"]) rfl⟩

/-- C4: when the response has no brace pair or its bracketed substring fails
to parse, each stage's extraction returns its designated default — the empty
refined list, the original record, or the empty suggestion list with the
fixed default prompt text — and, the embedded parsing sections being total
functions, no exception passes the extraction boundary. -/
theorem c4_extraction_failure_returns_defaults (parse : String → Option JObj)
    (resume_data : JObj) (s : String)
    (hfail : findJson s = none ∨ ∃ js, findJson s = some js ∧ parse js = none) :
    refinementParse parse s = JValue.jarr [] ∧
    supplementParse parse resume_data s = resume_data ∧
    improvementParse parse s =
      { suggestions := JValue.jarr [],
        prompt_text := JValue.jstr improvementDefaultPromptText } := by
  refine ⟨?_, supplementParse_fail parse resume_data s hfail, ?_⟩ <;>
    rcases hfail with h | ⟨js, hjs, hp⟩
  · simp only [refinementParse, h]
  · simp only [refinementParse, hjs, hp]
  · simp only [improvementParse, h]
  · simp only [improvementParse, hjs, hp]

/-- C4 witness: a brace-free response and an always-failing parse at a
concrete record. -/
theorem c4_witness :
    (findJson "garbage with no braces" = none ∨
     ∃ js, findJson "garbage with no braces" = some js ∧ parseNone js = none) ∧
    refinementParse parseNone "garbage with no braces" = JValue.jarr [] ∧
    supplementParse parseNone record0 "garbage with no braces" = record0 ∧
    improvementParse parseNone "garbage with no braces" =
      { suggestions := JValue.jarr [],
        prompt_text := JValue.jstr improvementDefaultPromptText } := by
  have h := c4_extraction_failure_returns_defaults parseNone record0
    "garbage with no braces" (Or.inl rfl)
  exact ⟨Or.inl rfl, h.1, h.2.1, h.2.2⟩

/-- C5 counterexample: on the response `\x7b"foo": 1\x7d`, whose parsed object
lacks the expected `work_experiences` key, the refinement extraction returns
the stage default (the empty list), not the whole parsed object as the claim
states. -/
theorem c5_counterexample_absent_key_not_whole_object :
    refinementParse c5parse c5text = JValue.jarr [] ∧
    refinementParse c5parse c5text ≠ JValue.jobj c5obj := by
  have h : refinementParse c5parse c5text = JValue.jarr [] := rfl
  refine ⟨h, ?_⟩
  rw [h]
  intro hEq
  exact JValue.noConfusion hEq

/-- C5 as amended: when an expected key is supplied and present, extraction
returns that key's value; when the expected key is absent, extraction
returns the stage's fixed default (empty list, or the default prompt text),
not the whole parsed object; the whole parsed object is returned only by the
supplement stage, which supplies no expected key. -/
theorem c5_amended_expected_key_or_stage_default (parse : String → Option JObj)
    (resume_data : JObj) (s js : String) (obj : JObj)
    (hfind : findJson s = some js) (hparse : parse js = some obj) :
    (∀ v, jsonGet obj "work_experiences" = some v → refinementParse parse s = v) ∧
    (jsonGet obj "work_experiences" = none → refinementParse parse s = JValue.jarr []) ∧
    (∀ v, jsonGet obj "suggestions" = some v → (improvementParse parse s).suggestions = v) ∧
    (jsonGet obj "suggestions" = none →
      (improvementParse parse s).suggestions = JValue.jarr []) ∧
    (∀ v, jsonGet obj "prompt_text" = some v → (improvementParse parse s).prompt_text = v) ∧
    (jsonGet obj "prompt_text" = none →
      (improvementParse parse s).prompt_text = JValue.jstr improvementDefaultPromptText) ∧
    supplementParse parse resume_data s = obj := by
  refine ⟨?_, ?_, ?_, ?_, ?_, ?_, ?_⟩
  · intro v hv
    simp only [refinementParse, hfind, hparse, hv, Option.getD_some]
  · intro hv
    simp only [refinementParse, hfind, hparse, hv, Option.getD_none]
  · intro v hv
    simp only [improvementParse, hfind, hparse, hv, Option.getD_some]
  · intro hv
    simp only [improvementParse, hfind, hparse, hv, Option.getD_none]
  · intro v hv
    simp only [improvementParse, hfind, hparse, hv, Option.getD_some]
  · intro hv
    simp only [improvementParse, hfind, hparse, hv, Option.getD_none]
  · simp only [supplementParse, hfind, hparse]

/-- C5 amended-claim witness: the keyless object `\x7b"foo": 1\x7d` yields the
stage defaults, and the supplement stage yields the whole parsed object. -/
theorem c5_witness :
    findJson c5text = some c5text ∧
    c5parse c5text = some c5obj ∧
    jsonGet c5obj "work_experiences" = none ∧
    refinementParse c5parse c5text = JValue.jarr [] ∧
    supplementParse c5parse record0 c5text = c5obj := by
  have h := c5_amended_expected_key_or_stage_default c5parse record0 c5text c5text c5obj
    rfl rfl
  exact ⟨rfl, rfl, rfl, h.2.1 rfl, h.2.2.2.2.2.2⟩

/-- C7: an exception raised by the LLM call during stage 3 is caught at the
stage boundary and is never fatal: provided the required stages 1, 2 and 4
succeed, the pipeline completes, and the assembled record carries the
original work-experience entries. -/
theorem c7_stage3_llm_exception_not_fatal (parse : String → Option JObj)
    (llm : String → Except Unit LLMResponse) (ui : UserInput) (job : JobRequirements)
    (r1 r2 r4 : LLMResponse) (e : Unit) (log : List String)
    (h1 : llm (companyPrompt (formatCompanyInfo job.company_info) job.job_description) =
      Except.ok r1)
    (h2 : llm (requirementsPrompt job.job_description (responseText r1)) = Except.ok r2)
    (hne : ui.work_experiences ≠ [])
    (h3 : refinementRun parse llm
      { work_experiences := formatWorkExperiences ui
        job_title := job.job_title
        job_requirements := job.job_description
        requirements_analysis := responseText r2
        company_analysis := responseText r1 } = (Except.error e, log))
    (h4 : llm (structurePrompt (formatUserInput ui) (responseText r2) (responseText r1)) =
      Except.ok r4) :
    (generate_resume parse llm ui job).1 =
      Except.ok
        { company_analysis := responseText r1
          requirements_analysis := responseText r2
          refined_work_experiences := JValue.jarr []
          structure_plan := responseText r4
          resume_data := extractStructuredData ui job (JValue.jarr []) } ∧
    jsonGet (extractStructuredData ui job (JValue.jarr [])) "work_experiences" =
      some (JValue.jarr (ui.work_experiences.map mkWorkExpObj)) := by
  have hc : companyAnalysisRun llm (formatCompanyInfo job.company_info) job.job_description
      = Except.ok (responseText r1) := by
    unfold companyAnalysisRun; rw [h1]
  have hr : requirementsRun llm job.job_description (responseText r1)
      = Except.ok (responseText r2) := by
    unfold requirementsRun; rw [h2]
  have hst : structureRun llm (formatUserInput ui) (responseText r2) (responseText r1)
      = Except.ok (responseText r4) := by
    unfold structureRun; rw [h4]
  have hs3 := orchestratorStage3_err parse llm ui job (responseText r2) (responseText r1)
    e log hne h3
  constructor
  · simp only [generate_resume, hc, hr, hst, hs3]
  · rw [jsonGet_extract_work_experiences]
    rfl

/-- C7 witness: an LLM stub that raises exactly on the stage-3 refinement
prompt; the pipeline completes with the two original entries of `ui0`. -/
theorem c7_witness :
    llm7 (companyPrompt (formatCompanyInfo job0.company_info) job0.job_description) =
      Except.ok (LLMResponse.raw "A") ∧
    llm7 (requirementsPrompt job0.job_description "A") = Except.ok (LLMResponse.raw "A") ∧
    ui0.work_experiences ≠ [] ∧
    refinementRun parseNone llm7 refInput7 = (Except.error (), [refinementPrompt refInput7]) ∧
    llm7 (structurePrompt (formatUserInput ui0) "A" "A") = Except.ok (LLMResponse.raw "A") ∧
    ((generate_resume parseNone llm7 ui0 job0).1 =
      Except.ok
        { company_analysis := "A"
          requirements_analysis := "A"
          refined_work_experiences := JValue.jarr []
          structure_plan := "A"
          resume_data := extractStructuredData ui0 job0 (JValue.jarr []) } ∧
     jsonGet (extractStructuredData ui0 job0 (JValue.jarr [])) "work_experiences" =
       some (JValue.jarr (ui0.work_experiences.map mkWorkExpObj))) := by
  have hne : ui0.work_experiences ≠ [] := by simp [ui0]
  exact ⟨rfl, rfl, hne, rfl, rfl,
    c7_stage3_llm_exception_not_fatal parseNone llm7 ui0 job0
      (LLMResponse.raw "A") (LLMResponse.raw "A") (LLMResponse.raw "A") ()
      [refinementPrompt refInput7] rfl rfl hne rfl rfl⟩

/-- C8 counterexample: under an LLM that raises exactly on the summary
prompt, the top-level generation flow aborts with the error instead of
continuing to a complete result with an empty summary — summary-stage
failure is not treated as optional by the caller. -/
theorem c8_counterexample_summary_exception_aborts :
    mainGenerate parseNone llm8 ui8 job0 = Except.error () ∧
    ¬ ∃ r : MainResults, mainGenerate parseNone llm8 ui8 job0 = Except.ok r := by
  have h : mainGenerate parseNone llm8 ui8 job0 = Except.error () := rfl
  refine ⟨h, ?_⟩
  intro hex
  obtain ⟨r, hr⟩ := hex
  rw [h] at hr
  exact Except.noConfusion hr

/-- C8 as amended: a failure (exception) of the summary-generation stage is
fatal to the top-level flow: the exception propagates out of the single
`try` block of the generation flow, which therefore produces no result at
all rather than a complete result with an empty summary. -/
theorem c8_amended_summary_failure_is_fatal (parse : String → Option JObj)
    (llm : String → Except Unit LLMResponse) (ui : UserInput) (job : JobRequirements)
    (results : GenResults) (e : Unit)
    (hok : (generate_resume parse llm ui job).1 = Except.ok results)
    (hsum : generate_summary llm ui job results.company_analysis
      results.requirements_analysis = Except.error e) :
    mainGenerate parse llm ui job = Except.error e := by
  simp only [mainGenerate, hok, hsum]

/-- C8 amended-claim witness: the concrete aborting run of the
counterexample's configuration. -/
theorem c8_witness :
    (generate_resume parseNone llm8 ui8 job0).1 = Except.ok res8 ∧
    generate_summary llm8 ui8 job0 res8.company_analysis res8.requirements_analysis =
      Except.error () ∧
    mainGenerate parseNone llm8 ui8 job0 = Except.error () :=
  ⟨rfl, rfl, c8_amended_summary_failure_is_fatal parseNone llm8 ui8 job0 res8 () rfl rfl⟩

/-- C9: every successfully assembled StructuredRecord carries all the fields
of the data model — name, residence, job_title, role, years_of_experience,
the four skill-category lists, work_experiences, personal_projects,
portfolio_url — with safe default values (empty strings for absent optional
fields), never a missing key. -/
theorem c9_structured_record_has_all_fields (parse : String → Option JObj)
    (llm : String → Except Unit LLMResponse) (ui : UserInput) (job : JobRequirements)
    (res : GenResults)
    (h : (generate_resume parse llm ui job).1 = Except.ok res) :
    jsonGet res.resume_data "name" = some (JValue.jstr ui.name) ∧
    jsonGet res.resume_data "residence" = some (JValue.jstr (pyOrEmpty ui.residence)) ∧
    jsonGet res.resume_data "job_title" = some (JValue.jstr (pyOrEmpty ui.job_title)) ∧
    jsonGet res.resume_data "role" =
      some (JValue.jstr (if job.job_title.isEmpty then "" else job.job_title)) ∧
    jsonGet res.resume_data "years_of_experience" =
      some (JValue.jstr (pyOrEmpty ui.years_of_experience)) ∧
    jsonGet res.resume_data "programming_languages" =
      some (JValue.jarr (ui.programming_languages.map JValue.jstr)) ∧
    jsonGet res.resume_data "frameworks" =
      some (JValue.jarr (ui.frameworks.map JValue.jstr)) ∧
    jsonGet res.resume_data "testing_tools" =
      some (JValue.jarr (ui.testing_tools.map JValue.jstr)) ∧
    jsonGet res.resume_data "design_tools" =
      some (JValue.jarr (ui.design_tools.map JValue.jstr)) ∧
    (jsonGet res.resume_data "work_experiences").isSome = true ∧
    jsonGet res.resume_data "personal_projects" =
      some (JValue.jarr (ui.personal_projects.map mkPersonalProjectObj)) ∧
    jsonGet res.resume_data "portfolio_url" =
      some (JValue.jstr (pyOrEmpty ui.portfolio_url)) := by
  rw [generate_resume_ok_resume_data parse llm ui job res h]
  refine ⟨rfl, rfl, rfl, rfl, rfl, rfl, rfl, rfl, rfl, ?_, rfl, rfl⟩
  rw [jsonGet_extract_work_experiences]
  rfl

/-- C9 witness: a completed concrete pipeline run; sample fields of the
assembled record, including a present work-experiences key and the
empty-string default for the absent portfolio URL. -/
theorem c9_witness :
    (generate_resume parseNone llmA ui0 job0).1 = Except.ok res9 ∧
    jsonGet res9.resume_data "name" = some (JValue.jstr ui0.name) ∧
    (jsonGet res9.resume_data "work_experiences").isSome = true ∧
    jsonGet res9.resume_data "portfolio_url" =
      some (JValue.jstr (pyOrEmpty ui0.portfolio_url)) := by
  have h : (generate_resume parseNone llmA ui0 job0).1 = Except.ok res9 := rfl
  have hc := c9_structured_record_has_all_fields parseNone llmA ui0 job0 res9 h
  obtain ⟨f1, _, _, _, _, _, _, _, _, f10, _, f12⟩ := hc
  exact ⟨h, f1, f10, f12⟩

end ResumeAI
